import Mathlib

/-!
Verification of the provider-abstraction and card-generation core of an
anki-card generator.  The Python sources (`generator/generators.py`,
`generator/read-generate-import.py`, `generator/api_calls/openai_text.py`,
`generator/api_calls/elevenlabs_audio.py`) are shallowly embedded below:
pure functions become Lean functions, Python exceptions become `Except`
errors drawn from the spec's error taxonomy, byte strings become `List Nat`,
and the one file-writing effect is made explicit as the final content of the
destination file (`Option (List Nat)`, `none` meaning no file was created).
-/

/-- The spec's error taxonomy (spec section 7).  The Python code signals these
situations with `ValueError` (wrong input type, invalid artifact, unknown
model), `AssertionError` (missing credential) and `KeyError` (unknown provider
string, unmapped language); each site is mapped to the taxonomy name the spec
gives it. -/
inductive GenError
  | InvalidInputType
  | MissingCredential
  | UnsupportedProvider
  | UnknownProvider
  | InvalidArtifact
  | UnsupportedLanguage
  | RemoteProviderFailure
deriving DecidableEq, Repr

/-- `generator.entities.WordWithContext`: a word plus its optional context.
Identity key is `word`. -/
structure WordWithContext where
  word : String
  context : String
deriving DecidableEq, Repr

/-- One event produced by a provider's audio chunk stream: either the next
binary chunk, or the stream raising mid-iteration (a remote failure). -/
inductive ChunkEvent
  | chunk (b : List Nat)
  | err
deriving DecidableEq, Repr

/-- The runtime value held in `GeneratorResponse.audio_bytes`.  The dataclass
default is a Python *list* (`field(default_factory=list)`); the Elevenlabs
path stores the `iter_content` *iterator*.  CPython's
`isinstance(x, typing.Iterator)` is `True` for the iterator and `False` for a
list (a list has `__iter__` but no `__next__`), so the two kinds must be kept
apart in the embedding. -/
inductive AudioSeq
  | list (chunks : List (List Nat))
  | iter (events : List ChunkEvent)
deriving DecidableEq, Repr

/-- `isinstance(audio_bytes, Iterator)` in CPython. -/
def AudioSeq.is_iterator : AudioSeq → Bool
  | .list _ => false
  | .iter _ => true

/-- The spec's phrase "iterable-of-bytes": both a Python list of `bytes`
chunks and an iterator of `bytes` chunks are iterables whose elements are
bytes, so both embedded constructors satisfy it. -/
def AudioSeq.is_iterable_of_bytes : AudioSeq → Bool
  | .list _ => true
  | .iter _ => true

/-- `generator.generators.GeneratorResponse` (a frozen dataclass). -/
structure GeneratorResponse where
  text : String
  image_path : String
  image_bytes : List Nat
  audio_bytes : AudioSeq
deriving DecidableEq, Repr

/-- `GeneratorResponse()` with every field at its dataclass default. -/
def GeneratorResponse.default : GeneratorResponse :=
  ⟨"", "", [], AudioSeq.list []⟩

/-- The content of the destination file after a save operation:
`none` means the file was never created. -/
abbrev FileState : Type := Option (List Nat)

/-- `GeneratorResponse.save_image`: the check
`isinstance(image_bytes, bytes) and len(image_bytes) > 0` guards the write;
on failure a `ValueError` (`InvalidArtifact`) is raised *before* the file is
opened, so no file appears.  On success the whole blob is written. -/
def GeneratorResponse.save_image (r : GeneratorResponse) :
    Except GenError Unit × FileState :=
  if 0 < r.image_bytes.length then
    (Except.ok (), some r.image_bytes)
  else
    (Except.error GenError.InvalidArtifact, none)

/-- The write loop of `save_audio`: the file is already open, `acc` is what
has been written so far; each `chunk` event is written as it arrives, and an
`err` event is the stream raising mid-iteration, which aborts the loop with
the bytes written so far already in the file. -/
def writeChunks : List ChunkEvent → List Nat → Option GenError × List Nat
  | [], acc => (none, acc)
  | ChunkEvent.chunk b :: rest, acc => writeChunks rest (acc ++ b)
  | ChunkEvent.err :: _, acc => (some GenError.RemoteProviderFailure, acc)

/-- `GeneratorResponse.save_audio`: if `audio_bytes` is not an `Iterator`
(in particular for the list default) a `ValueError` (`InvalidArtifact`) is
raised before the file is opened.  Otherwise the file is opened (created
empty) and the chunks are written one by one as they are drawn from the
iterator; an exception from the iterator propagates, leaving the
already-written prefix in the file (the `with` block only closes the
handle). -/
def GeneratorResponse.save_audio (r : GeneratorResponse) :
    Except GenError Unit × FileState :=
  match r.audio_bytes with
  | AudioSeq.list _ => (Except.error GenError.InvalidArtifact, none)
  | AudioSeq.iter events =>
    match writeChunks events [] with
    | (none, written) => (Except.ok (), some written)
    | (some e, written) => (Except.error e, some written)

lemma writeChunks_map_chunk (bs : List (List Nat)) (acc : List Nat) :
    writeChunks (bs.map ChunkEvent.chunk) acc = (none, acc ++ bs.flatten) := by
  induction bs generalizing acc with
  | nil => simp [writeChunks]
  | cons b rest ih => simp [writeChunks, ih, List.append_assoc]

lemma writeChunks_err (bs : List (List Nat)) (rest : List ChunkEvent)
    (acc : List Nat) :
    writeChunks (bs.map ChunkEvent.chunk ++ ChunkEvent.err :: rest) acc =
      (some GenError.RemoteProviderFailure, acc ++ bs.flatten) := by
  induction bs generalizing acc with
  | nil => simp [writeChunks]
  | cons b bs ih => simp [writeChunks, ih, List.append_assoc]

/-- C6: `save_image` writes exactly `image_bytes` to the destination when the
blob is non-empty, and fails with `InvalidArtifact` (creating no file) when it
is empty — in particular on a default-constructed response. -/
theorem c6_save_image_spec :
    (∀ r : GeneratorResponse,
      (r.image_bytes ≠ [] ∧
        r.save_image = (Except.ok (), some r.image_bytes)) ∨
      (r.image_bytes = [] ∧
        r.save_image = (Except.error GenError.InvalidArtifact, none))) ∧
    GeneratorResponse.default.save_image =
      (Except.error GenError.InvalidArtifact, none) := by
  constructor
  · intro r
    cases h : r.image_bytes with
    | nil =>
      right
      refine ⟨rfl, ?_⟩
      simp [GeneratorResponse.save_image, h]
    | cons b bs =>
      left
      refine ⟨by simp [h], ?_⟩
      simp [GeneratorResponse.save_image, h]
  · rfl

/-- C3 counterexample: a response whose `audio_bytes` is a (non-empty) Python
list of byte chunks *is* an iterable-of-bytes, yet `save_audio` fails with
`InvalidArtifact`, because the code tests `isinstance(audio_bytes, Iterator)`
and a list is not an `Iterator`.  This refutes "fails with InvalidArtifact
exactly when audio_bytes is not an iterable-of-bytes". -/
theorem c3_counterexample :
    AudioSeq.is_iterable_of_bytes (AudioSeq.list [[104]]) = true ∧
    GeneratorResponse.save_audio ⟨"", "", [], AudioSeq.list [[104]]⟩ =
      (Except.error GenError.InvalidArtifact, none) :=
  ⟨rfl, rfl⟩

/-- C3 (amended): `save_audio` fails with `InvalidArtifact` exactly when
`audio_bytes` is not an *iterator* — in particular it always fails on a
default-constructed response, whose `audio_bytes` is the default (empty)
list —; when `audio_bytes` is an iterator of byte chunks it consumes the
sequence in a single pass, writing each chunk in order to the destination. -/
theorem c3_save_audio_iterator :
    (∀ (t p : String) (ib : List Nat) (bs : List (List Nat)), GeneratorResponse.save_audio
        ⟨t, p, ib, AudioSeq.iter (bs.map ChunkEvent.chunk)⟩ =
        (Except.ok (), some bs.flatten)) ∧
    (∀ (t p : String) (ib : List Nat) (cs : List (List Nat)), GeneratorResponse.save_audio ⟨t, p, ib, AudioSeq.list cs⟩ =
        (Except.error GenError.InvalidArtifact, none)) ∧
    (∀ a : AudioSeq, a.is_iterable_of_bytes = true) ∧
    GeneratorResponse.default.save_audio =
      (Except.error GenError.InvalidArtifact, none) := by
  refine ⟨?_, ?_, ?_, rfl⟩
  · intro t p ib bs
    simp [GeneratorResponse.save_audio, writeChunks_map_chunk]
  · intro t p ib cs
    rfl
  · intro a
    cases a <;> rfl

/-- C7 counterexample: when the audio chunk stream yields one chunk and then
raises, `save_audio` errors but the destination file exists and holds the
partial prefix `[104]` — the write is not atomic and no delete-on-failure is
performed. -/
theorem c7_counterexample :
    GeneratorResponse.save_audio
        ⟨"", "", [], AudioSeq.iter [ChunkEvent.chunk [104], ChunkEvent.err]⟩ =
      (Except.error GenError.RemoteProviderFailure, some [104]) ∧
    (some [104] : FileState) ≠ (none : FileState) :=
  ⟨rfl, fun h => Option.noConfusion h⟩

/-- C7 (amended): `save_image` performs one scoped write and is atomic — it
either writes the full blob or, on its error path, creates no file at the
destination.  `save_audio`, however, opens the destination before draining
the stream and writes chunks as they arrive, so on a success it writes the
whole sequence, but when the chunk sequence raises mid-iteration the
already-written chunks remain as a partial file at the destination. -/
theorem c7_write_atomicity :
    (∀ r : GeneratorResponse,
      r.save_image = (Except.ok (), some r.image_bytes) ∨
      r.save_image = (Except.error GenError.InvalidArtifact, none)) ∧
    (∀ (t p : String) (ib : List Nat) (bs : List (List Nat)), GeneratorResponse.save_audio
        ⟨t, p, ib, AudioSeq.iter (bs.map ChunkEvent.chunk)⟩ =
        (Except.ok (), some bs.flatten)) ∧
    (∀ (t p : String) (ib : List Nat) (bs : List (List Nat)) (rest : List ChunkEvent), GeneratorResponse.save_audio
        ⟨t, p, ib,
          AudioSeq.iter (bs.map ChunkEvent.chunk ++ ChunkEvent.err :: rest)⟩ =
        (Except.error GenError.RemoteProviderFailure, some bs.flatten)) := by
  refine ⟨?_, ?_, ?_⟩
  · intro r
    by_cases h : 0 < r.image_bytes.length
    · left
      simp [GeneratorResponse.save_image, h]
    · right
      simp [GeneratorResponse.save_image, h]
  · intro t p ib bs
    simp [GeneratorResponse.save_audio, writeChunks_map_chunk]
  · intro t p ib bs rest
    simp [GeneratorResponse.save_audio, writeChunks_err]

/-- `generator.generators.AvailableModels`: the closed enumeration of
provider identifiers. -/
inductive AvailableModels
  | GPT_4o
  | GPT_3_5_turbo
  | COHERE
  | KANDINSKY_3
  | ELEVENLABS
deriving DecidableEq, Repr, Fintype

/-- The wire string of each identifier (the Python enum's `.value`). -/
def AvailableModels.value : AvailableModels → String
  | .GPT_4o => "gpt-4o"
  | .GPT_3_5_turbo => "gpt-3.5-turbo"
  | .COHERE => "cohere"
  | .KANDINSKY_3 => "kandinsky"
  | .ELEVENLABS => "elevenlabs"

/-- `AvailableModels.available_text_models()`. -/
def AvailableModels.available_text_models : Finset AvailableModels :=
  {AvailableModels.GPT_4o, AvailableModels.GPT_3_5_turbo, AvailableModels.COHERE}

/-- `AvailableModels.available_image_models()`. -/
def AvailableModels.available_image_models : Finset AvailableModels :=
  {AvailableModels.KANDINSKY_3}

/-- `AvailableModels.available_tts_models()`. -/
def AvailableModels.available_tts_models : Finset AvailableModels :=
  {AvailableModels.ELEVENLABS}

/-- `AvailableModels.available_models()`: starts from the text set and
`update`s (set-unions) in the image and tts sets. -/
def AvailableModels.available_models : Finset AvailableModels :=
  AvailableModels.available_text_models ∪
    AvailableModels.available_image_models ∪
      AvailableModels.available_tts_models

/-- `AvailableModels.backward_mapping()`: the dict literal from the source,
keyed by each enum value's wire string, in source order. -/
def AvailableModels.backward_mapping : List (String × AvailableModels) :=
  [(AvailableModels.GPT_4o.value, AvailableModels.GPT_4o),
   (AvailableModels.GPT_3_5_turbo.value, AvailableModels.GPT_3_5_turbo),
   (AvailableModels.COHERE.value, AvailableModels.COHERE),
   (AvailableModels.ELEVENLABS.value, AvailableModels.ELEVENLABS),
   (AvailableModels.KANDINSKY_3.value, AvailableModels.KANDINSKY_3)]

/-- `generator.generators.GeneratorConfig` (a frozen dataclass): selected
model, credentials, target language. -/
structure GeneratorConfig where
  model : AvailableModels
  API_KEY : String
  SECRET_KEY : String
  language : String
deriving DecidableEq, Repr

/-- The fields of the parsed CLI `Namespace` that `GeneratorConfig.from_args`
reads. -/
structure Args where
  text_model : String
  text_api_key : String
  text_secret_key : String
  image_model : String
  image_api_key : String
  image_secret_key : String
  voice_model : String
  voice_api_key : String
  voice_secret_key : String
  language : String
deriving DecidableEq, Repr

/-- `GeneratorConfig.from_args`: builds the text, image and tts configs in
that order, resolving each provider string through
`AvailableModels.backward_mapping()`; a Python dict lookup of an unknown
string raises `KeyError` (`UnknownProvider`) at the first unresolved
string. -/
def GeneratorConfig.from_args (args : Args) :
    Except GenError (List GeneratorConfig) :=
  match AvailableModels.backward_mapping.lookup args.text_model with
  | none => Except.error GenError.UnknownProvider
  | some text_m =>
    match AvailableModels.backward_mapping.lookup args.image_model with
    | none => Except.error GenError.UnknownProvider
    | some image_m =>
      match AvailableModels.backward_mapping.lookup args.voice_model with
      | none => Except.error GenError.UnknownProvider
      | some voice_m =>
        Except.ok
          [⟨text_m, args.text_api_key, args.text_secret_key, args.language⟩,
           ⟨image_m, args.image_api_key, args.image_secret_key, args.language⟩,
           ⟨voice_m, args.voice_api_key, args.voice_secret_key, args.language⟩]

/-- A constructed generator: one constructor per concrete Python class, each
holding the config the base `Generator.__init__` stores. -/
inductive Generator
  | gptext (config : GeneratorConfig)
  | cohereText (config : GeneratorConfig)
  | kandinskyImage (config : GeneratorConfig)
  | elevenlabsTTS (config : GeneratorConfig)
deriving DecidableEq, Repr

/-- The runtime class of a generator instance. -/
inductive GeneratorKind
  | GPTextGenerator
  | CohereTextGenerator
  | KandinskyImageGenerator
  | ElevenlabsTTSGenerator
deriving DecidableEq, Repr

/-- `type(g)` of a constructed generator. -/
def Generator.kind : Generator → GeneratorKind
  | .gptext _ => GeneratorKind.GPTextGenerator
  | .cohereText _ => GeneratorKind.CohereTextGenerator
  | .kandinskyImage _ => GeneratorKind.KandinskyImageGenerator
  | .elevenlabsTTS _ => GeneratorKind.ElevenlabsTTSGenerator

/-- `GPTextGenerator(config)`: the base constructor only stores the config;
no validation is performed. -/
def GPTextGenerator.init (config : GeneratorConfig) :
    Except GenError Generator :=
  Except.ok (Generator.gptext config)

/-- `CohereTextGenerator(config)`: the base constructor only stores the
config; no validation is performed. -/
def CohereTextGenerator.init (config : GeneratorConfig) :
    Except GenError Generator :=
  Except.ok (Generator.cohereText config)

/-- `KandinskyImageGenerator.__init__`: after storing the config it runs
`assert len(API_KEY)` and then `assert len(SECRET_KEY)`; a failing assert
(`MissingCredential`) aborts construction.  The constructor body contains no
network interaction. -/
def KandinskyImageGenerator.init (config : GeneratorConfig) :
    Except GenError Generator :=
  if config.API_KEY.length ≠ 0 then
    if config.SECRET_KEY.length ≠ 0 then
      Except.ok (Generator.kandinskyImage config)
    else Except.error GenError.MissingCredential
  else Except.error GenError.MissingCredential

/-- `ElevenlabsTTSGenerator.__init__`: after storing the config it runs
`assert len(API_KEY)`; a failing assert (`MissingCredential`) aborts
construction.  The constructor body contains no network interaction. -/
def ElevenlabsTTSGenerator.init (config : GeneratorConfig) :
    Except GenError Generator :=
  if config.API_KEY.length ≠ 0 then
    Except.ok (Generator.elevenlabsTTS config)
  else Except.error GenError.MissingCredential

/-- `GeneratorFactory.MAPPING`: identifier → constructor, as declared in the
source. -/
def GeneratorFactory.MAPPING :
    AvailableModels → GeneratorConfig → Except GenError Generator
  | .GPT_3_5_turbo => GPTextGenerator.init
  | .GPT_4o => GPTextGenerator.init
  | .KANDINSKY_3 => KandinskyImageGenerator.init
  | .ELEVENLABS => ElevenlabsTTSGenerator.init
  | .COHERE => CohereTextGenerator.init

/-- The runtime class each factory entry constructs (read off the declared
`MAPPING`). -/
def GeneratorFactory.declared_kind : AvailableModels → GeneratorKind
  | .GPT_3_5_turbo => GeneratorKind.GPTextGenerator
  | .GPT_4o => GeneratorKind.GPTextGenerator
  | .KANDINSKY_3 => GeneratorKind.KandinskyImageGenerator
  | .ELEVENLABS => GeneratorKind.ElevenlabsTTSGenerator
  | .COHERE => GeneratorKind.CohereTextGenerator

/-- `GeneratorFactory.create`: checks membership in `available_models()`
before dispatching to the mapped constructor; an unregistered identifier is a
`ValueError` (`UnsupportedProvider`). -/
def GeneratorFactory.create (config : GeneratorConfig) :
    Except GenError Generator :=
  if config.model ∈ AvailableModels.available_models then
    GeneratorFactory.MAPPING config.model config
  else
    Except.error GenError.UnsupportedProvider

/-- The credentials the mapped constructor's asserts demand: both keys for
Kandinsky, the API key for Elevenlabs, nothing for the text generators. -/
def GeneratorFactory.credentials_ok (config : GeneratorConfig) : Bool :=
  match config.model with
  | .KANDINSKY_3 => config.API_KEY.length != 0 && config.SECRET_KEY.length != 0
  | .ELEVENLABS => config.API_KEY.length != 0
  | _ => true

/-- C2 counterexample: `KANDINSKY_3` is in `available_models()`, yet `create`
on a config with empty credentials does not return a generator — the mapped
constructor's `assert` raises (`MissingCredential`), refuting "for every
GeneratorConfig whose model is in available_models(), create returns a
generator of the declared runtime type". -/
theorem c2_counterexample :
    AvailableModels.KANDINSKY_3 ∈ AvailableModels.available_models ∧
    GeneratorFactory.create ⟨AvailableModels.KANDINSKY_3, "", "", "english"⟩ =
      Except.error GenError.MissingCredential := by
  constructor
  · decide
  · rfl

/-- Every declared identifier lies in `available_models()`. -/
lemma mem_available_models (m : AvailableModels) :
    m ∈ AvailableModels.available_models := by
  cases m <;> decide

/-- C2 (amended): every declared identifier is in `available_models()` (so
the `UnsupportedProvider` branch is unreachable for a well-typed config), and
for every config whose required credentials are non-empty, `create` returns a
generator whose runtime type is the one declared in the factory mapping
(GPT_4o and GPT_3_5_turbo give GPTextGenerator, COHERE gives
CohereTextGenerator, KANDINSKY_3 gives KandinskyImageGenerator, ELEVENLABS
gives ElevenlabsTTSGenerator); with a model in the set but an empty required
credential it fails with MissingCredential instead. -/
theorem c2_factory_dispatch :
    (∀ m : AvailableModels, m ∈ AvailableModels.available_models) ∧
    (∀ config : GeneratorConfig, GeneratorFactory.credentials_ok config = true →
      ∃ g : Generator, GeneratorFactory.create config = Except.ok g ∧
        g.kind = GeneratorFactory.declared_kind config.model) ∧
    (∀ config : GeneratorConfig, GeneratorFactory.credentials_ok config = false →
      GeneratorFactory.create config = Except.error GenError.MissingCredential) := by
  refine ⟨by decide, ?_, ?_⟩
  · intro config h
    obtain ⟨m, api, sec, lang⟩ := config
    have hmem : m ∈ AvailableModels.available_models := mem_available_models m
    cases m <;>
      simp_all [GeneratorFactory.create, GeneratorFactory.MAPPING,
        GeneratorFactory.credentials_ok, GPTextGenerator.init,
        CohereTextGenerator.init, KandinskyImageGenerator.init,
        ElevenlabsTTSGenerator.init, GeneratorFactory.declared_kind,
        Generator.kind]
  · intro config h
    obtain ⟨m, api, sec, lang⟩ := config
    have hmem : m ∈ AvailableModels.available_models := mem_available_models m
    cases m <;>
      simp_all [GeneratorFactory.create, GeneratorFactory.MAPPING,
        GeneratorFactory.credentials_ok, GPTextGenerator.init,
        CohereTextGenerator.init, KandinskyImageGenerator.init,
        ElevenlabsTTSGenerator.init]

/-- Witness for `c2_factory_dispatch` at concrete configs: a Kandinsky config
with both credentials present yields a `KandinskyImageGenerator`, and one
with an empty secret fails with `MissingCredential`. -/
theorem c2_factory_dispatch_witness :
    (∃ g : Generator,
      GeneratorFactory.create
          ⟨AvailableModels.KANDINSKY_3, "k", "s", "english"⟩ = Except.ok g ∧
        g.kind = GeneratorFactory.declared_kind AvailableModels.KANDINSKY_3) ∧
    GeneratorFactory.create ⟨AvailableModels.KANDINSKY_3, "k", "", "english"⟩ =
      Except.error GenError.MissingCredential :=
  ⟨c2_factory_dispatch.2.1 ⟨AvailableModels.KANDINSKY_3, "k", "s", "english"⟩
      (by decide),
   c2_factory_dispatch.2.2 ⟨AvailableModels.KANDINSKY_3, "k", "", "english"⟩
      (by decide)⟩

/-- C5: constructing the Kandinsky image generator with an empty API key or
empty secret key, or the Elevenlabs tts generator with an empty API key,
fails with `MissingCredential` at construction time (the constructor bodies
contain only the asserts, no network interaction); construction with
non-empty required credentials succeeds. -/
theorem c5_constructor_credentials :
    (∀ config : GeneratorConfig,
      config.API_KEY.length = 0 ∨ config.SECRET_KEY.length = 0 →
      KandinskyImageGenerator.init config =
        Except.error GenError.MissingCredential) ∧
    (∀ config : GeneratorConfig,
      config.API_KEY.length ≠ 0 → config.SECRET_KEY.length ≠ 0 →
      KandinskyImageGenerator.init config =
        Except.ok (Generator.kandinskyImage config)) ∧
    (∀ config : GeneratorConfig, config.API_KEY.length = 0 →
      ElevenlabsTTSGenerator.init config =
        Except.error GenError.MissingCredential) ∧
    (∀ config : GeneratorConfig, config.API_KEY.length ≠ 0 →
      ElevenlabsTTSGenerator.init config =
        Except.ok (Generator.elevenlabsTTS config)) := by
  refine ⟨?_, ?_, ?_, ?_⟩
  · intro config h
    rcases h with h | h <;>
      simp [KandinskyImageGenerator.init, h]
  · intro config h1 h2
    simp [KandinskyImageGenerator.init, h1, h2]
  · intro config h
    simp [ElevenlabsTTSGenerator.init, h]
  · intro config h
    simp [ElevenlabsTTSGenerator.init, h]

/-- Witness for `c5_constructor_credentials` at concrete configs. -/
theorem c5_constructor_credentials_witness :
    KandinskyImageGenerator.init ⟨AvailableModels.KANDINSKY_3, "", "s", "english"⟩ =
      Except.error GenError.MissingCredential ∧
    KandinskyImageGenerator.init ⟨AvailableModels.KANDINSKY_3, "k", "s", "english"⟩ =
      Except.ok (Generator.kandinskyImage
        ⟨AvailableModels.KANDINSKY_3, "k", "s", "english"⟩) ∧
    ElevenlabsTTSGenerator.init ⟨AvailableModels.ELEVENLABS, "", "", "english"⟩ =
      Except.error GenError.MissingCredential ∧
    ElevenlabsTTSGenerator.init ⟨AvailableModels.ELEVENLABS, "e", "", "english"⟩ =
      Except.ok (Generator.elevenlabsTTS
        ⟨AvailableModels.ELEVENLABS, "e", "", "english"⟩) :=
  ⟨c5_constructor_credentials.1 _ (Or.inl (by decide)),
   c5_constructor_credentials.2.1 _ (by decide) (by decide),
   c5_constructor_credentials.2.2.1 _ (by decide),
   c5_constructor_credentials.2.2.2 _ (by decide)⟩

/-- C8: `backward_mapping()` round-trips with the wire string — looking up
`m.value` yields `m` for every declared identifier — and
`GeneratorConfig.from_args` fails with `UnknownProvider` whenever any of the
three provider strings is not a declared wire string. -/
theorem c8_backward_mapping_roundtrip :
    (∀ m : AvailableModels,
      AvailableModels.backward_mapping.lookup m.value = some m) ∧
    (∀ args : Args,
      (AvailableModels.backward_mapping.lookup args.text_model = none ∨
       AvailableModels.backward_mapping.lookup args.image_model = none ∨
       AvailableModels.backward_mapping.lookup args.voice_model = none) →
      GeneratorConfig.from_args args =
        Except.error GenError.UnknownProvider) := by
  constructor
  · decide
  · intro args h
    unfold GeneratorConfig.from_args
    cases htext : AvailableModels.backward_mapping.lookup args.text_model with
    | none => rfl
    | some tm =>
      cases himg : AvailableModels.backward_mapping.lookup args.image_model with
      | none => rfl
      | some im =>
        cases hvoice :
            AvailableModels.backward_mapping.lookup args.voice_model with
        | none => rfl
        | some vm =>
          exfalso
          rcases h with h | h | h <;> simp_all

/-- Witness for `c8_backward_mapping_roundtrip`: an argument set naming an
undeclared text provider string makes `from_args` fail. -/
theorem c8_backward_mapping_roundtrip_witness :
    GeneratorConfig.from_args
        ⟨"no-such-model", "", "", "kandinsky", "", "", "elevenlabs", "", "",
          "english"⟩ =
      Except.error GenError.UnknownProvider :=
  c8_backward_mapping_roundtrip.2
    ⟨"no-such-model", "", "", "kandinsky", "", "", "elevenlabs", "", "",
      "english"⟩ (Or.inl (by decide))

/-- C9: `available_models()` is the union of the three capability sets, the
three sets are pairwise disjoint, the union's cardinality is the sum of the
three cardinalities (no duplicates), and every declared identifier belongs to
exactly one capability class. -/
theorem c9_capability_partition :
    AvailableModels.available_models =
      AvailableModels.available_text_models ∪
        AvailableModels.available_image_models ∪
          AvailableModels.available_tts_models ∧
    AvailableModels.available_text_models ∩
      AvailableModels.available_image_models = ∅ ∧
    AvailableModels.available_text_models ∩
      AvailableModels.available_tts_models = ∅ ∧
    AvailableModels.available_image_models ∩
      AvailableModels.available_tts_models = ∅ ∧
    AvailableModels.available_models.card =
      AvailableModels.available_text_models.card +
        AvailableModels.available_image_models.card +
          AvailableModels.available_tts_models.card ∧
    (∀ m : AvailableModels, m ∈ AvailableModels.available_models ∧
      ((m ∈ AvailableModels.available_text_models ∧
          m ∉ AvailableModels.available_image_models ∧
          m ∉ AvailableModels.available_tts_models) ∨
       (m ∉ AvailableModels.available_text_models ∧
          m ∈ AvailableModels.available_image_models ∧
          m ∉ AvailableModels.available_tts_models) ∨
       (m ∉ AvailableModels.available_text_models ∧
          m ∉ AvailableModels.available_image_models ∧
          m ∈ AvailableModels.available_tts_models))) := by
  refine ⟨rfl, by decide, by decide, by decide, by decide, by decide⟩

/-- `ElevenlabsAudio.ENGLISH_VOICE_ID`. -/
def ElevenlabsAudio.ENGLISH_VOICE_ID : String := "P7x743VjyZEOihNNygQ9"

/-- `ElevenlabsAudio.GERMAN_VOICE_ID`. -/
def ElevenlabsAudio.GERMAN_VOICE_ID : String := "MHxgWgZ7ayjcFagtPw59"

/-- `ElevenlabsAudio.MODEL1`. -/
def ElevenlabsAudio.MODEL1 : String := "eleven_monolingual_v1"

/-- `ElevenlabsAudio.VOICE_IDS`: language → voice id, as the source dict. -/
def ElevenlabsAudio.VOICE_IDS : List (String × String) :=
  [("english", ElevenlabsAudio.ENGLISH_VOICE_ID),
   ("german", ElevenlabsAudio.GERMAN_VOICE_ID)]

/-- The provider request that `ElevenlabsAudio.generate_audio` assembles and
posts (the network call itself is the excluded collaborator; the request
descriptor is the observable boundary value). -/
structure AudioRequest where
  voice_id : String
  xi_api_key : String
  model_id : String
  text : String
deriving DecidableEq, Repr

/-- `ElevenlabsAudio.generate_audio`: `VOICE_IDS[language]` is a Python dict
subscript, so an unmapped language raises `KeyError`
(`UnsupportedLanguage`); for a mapped language the request is built with the
provider-specific voice, the caller's key and `MODEL1`. -/
def ElevenlabsAudio.generate_audio (text : String) (xi_api_key : String)
    (language : String) : Except GenError AudioRequest :=
  match ElevenlabsAudio.VOICE_IDS.lookup language with
  | none => Except.error GenError.UnsupportedLanguage
  | some voice_id =>
    Except.ok ⟨voice_id, xi_api_key, ElevenlabsAudio.MODEL1, text⟩

/-- The `Union[WordWithContext, str]` argument of `Generator.generate`. -/
inductive GenInput
  | word (w : WordWithContext)
  | str (s : String)
deriving DecidableEq, Repr

/-- `ElevenlabsTTSGenerator.generate`: a string input is turned into an
audio request via `ElevenlabsAudio.generate_audio` with the config's key and
language; any other input raises `ValueError` (`InvalidInputType`). -/
def ElevenlabsTTSGenerator.generate (config : GeneratorConfig)
    (input_ : GenInput) : Except GenError AudioRequest :=
  match input_ with
  | GenInput.str s =>
    ElevenlabsAudio.generate_audio s config.API_KEY config.language
  | GenInput.word _ => Except.error GenError.InvalidInputType

/-- C4: generating audio for a target language with no provider voice
mapping fails with `UnsupportedLanguage` (no silent default voice); for a
mapped language the provider-specific voice for that language is selected —
in particular english and german select their declared voice ids. -/
theorem c4_voice_mapping :
    (∀ (config : GeneratorConfig) (s : String),
      ElevenlabsAudio.VOICE_IDS.lookup config.language = none →
      ElevenlabsTTSGenerator.generate config (GenInput.str s) =
        Except.error GenError.UnsupportedLanguage) ∧
    (∀ (config : GeneratorConfig) (s v : String),
      ElevenlabsAudio.VOICE_IDS.lookup config.language = some v →
      ∃ req : AudioRequest,
        ElevenlabsTTSGenerator.generate config (GenInput.str s) =
          Except.ok req ∧ req.voice_id = v) ∧
    (∀ (config : GeneratorConfig) (s : String), config.language = "english" →
      ∃ req : AudioRequest,
        ElevenlabsTTSGenerator.generate config (GenInput.str s) =
          Except.ok req ∧ req.voice_id = ElevenlabsAudio.ENGLISH_VOICE_ID) ∧
    (∀ (config : GeneratorConfig) (s : String), config.language = "german" →
      ∃ req : AudioRequest,
        ElevenlabsTTSGenerator.generate config (GenInput.str s) =
          Except.ok req ∧ req.voice_id = ElevenlabsAudio.GERMAN_VOICE_ID) := by
  refine ⟨?_, ?_, ?_, ?_⟩
  · intro config s h
    simp [ElevenlabsTTSGenerator.generate, ElevenlabsAudio.generate_audio, h]
  · intro config s v h
    refine ⟨⟨v, config.API_KEY, ElevenlabsAudio.MODEL1, s⟩, ?_, rfl⟩
    simp [ElevenlabsTTSGenerator.generate, ElevenlabsAudio.generate_audio, h]
  · intro config s h
    refine ⟨⟨ElevenlabsAudio.ENGLISH_VOICE_ID, config.API_KEY,
      ElevenlabsAudio.MODEL1, s⟩, ?_, rfl⟩
    simp [ElevenlabsTTSGenerator.generate, ElevenlabsAudio.generate_audio, h,
      ElevenlabsAudio.VOICE_IDS, List.lookup]
  · intro config s h
    refine ⟨⟨ElevenlabsAudio.GERMAN_VOICE_ID, config.API_KEY,
      ElevenlabsAudio.MODEL1, s⟩, ?_, rfl⟩
    simp [ElevenlabsTTSGenerator.generate, ElevenlabsAudio.generate_audio, h,
      ElevenlabsAudio.VOICE_IDS, List.lookup]

/-- Witness for `c4_voice_mapping` at concrete configs: french is unmapped
and fails; english is mapped to its declared voice. -/
theorem c4_voice_mapping_witness :
    ElevenlabsTTSGenerator.generate
        ⟨AvailableModels.ELEVENLABS, "key", "", "french"⟩
        (GenInput.str "bonjour") =
      Except.error GenError.UnsupportedLanguage ∧
    ∃ req : AudioRequest,
      ElevenlabsTTSGenerator.generate
          ⟨AvailableModels.ELEVENLABS, "key", "", "english"⟩
          (GenInput.str "hello") =
        Except.ok req ∧ req.voice_id = ElevenlabsAudio.ENGLISH_VOICE_ID :=
  ⟨c4_voice_mapping.1 ⟨AvailableModels.ELEVENLABS, "key", "", "french"⟩
      "bonjour" (by decide),
   c4_voice_mapping.2.2.1 ⟨AvailableModels.ELEVENLABS, "key", "", "english"⟩
      "hello" rfl⟩

/-- `read-generate-import.exclude_imported_words`: when at least one word was
imported in phase 1, filter from the original input every `WordWithContext`
whose `word` is in the imported list (Python `not in` on a list of strings);
otherwise return the input unchanged. -/
def exclude_imported_words (input_words : List WordWithContext)
    (imported_existing_words : List String) : List WordWithContext :=
  if 1 ≤ imported_existing_words.length then
    input_words.filter (fun wc => decide (wc.word ∉ imported_existing_words))
  else
    input_words

/-- Modelled from the spec: `validation.filter_words_are_present_in_deck`
(the validation collaborator is not under `src/`).  Spec section 6:
`filter_words_present_in_target(collection_name, words) -> words_not_present`;
the target-collection membership test is abstracted as the predicate
`present_in_deck` on the word key. -/
def filter_words_are_present_in_deck (present_in_deck : String → Bool)
    (input_words : List WordWithContext) : List WordWithContext :=
  input_words.filter (fun wc => !(present_in_deck wc.word))

/-- The word list `process_new_cards` hands to
`generate_cards.generate_text_and_image`: its argument filtered once more
against the target deck. -/
def process_new_cards_words (present_in_deck : String → Bool)
    (input_words : List WordWithContext) : List WordWithContext :=
  filter_words_are_present_in_deck present_in_deck input_words

/-- The phase-2 generation word set as `main` produces it: phase 1 returns
`imported_existing_words`, `exclude_imported_words` strips them from the
original input, and `process_new_cards` receives the result. -/
def main_phase2_words (present_in_deck : String → Bool)
    (input_words : List WordWithContext)
    (imported_existing_words : List String) : List WordWithContext :=
  process_new_cards_words present_in_deck
    (exclude_imported_words input_words imported_existing_words)

/-- C1: the word list `main` passes to phase 2 equals the original input
minus every `WordWithContext` whose `word` field exactly string-matches a
word returned by phase 1; `exclude_imported_words` returns the input
unchanged, in order, when the imported list is empty; and no
phase-1-imported word survives into the phase-2 generation set (even after
the deck filter inside `process_new_cards`), so it is never regenerated. -/
theorem c1_phase2_excludes_imported :
    ∀ (input_words : List WordWithContext)
      (imported : List String) (present_in_deck : String → Bool),
      (imported = [] → exclude_imported_words input_words imported =
        input_words) ∧
      exclude_imported_words input_words imported =
        input_words.filter (fun wc => decide (wc.word ∉ imported)) ∧
      (∀ wc : WordWithContext,
        wc ∈ main_phase2_words present_in_deck input_words imported →
        wc.word ∉ imported) := by
  intro input_words imported present_in_deck
  refine ⟨?_, ?_, ?_⟩
  · intro h
    simp [exclude_imported_words, h]
  · by_cases h : 1 ≤ imported.length
    · simp [exclude_imported_words, h]
    · have hnil : imported = [] := by
        cases imported with
        | nil => rfl
        | cons a l => exact absurd (Nat.succ_le_succ (Nat.zero_le _)) h
      subst hnil
      simp [exclude_imported_words]
  · intro wc hwc
    have hmem : wc ∈ exclude_imported_words input_words imported := by
      have := List.mem_filter.mp hwc
      exact this.1
    by_cases h : 1 ≤ imported.length
    · rw [exclude_imported_words, if_pos h] at hmem
      have := List.mem_filter.mp hmem
      exact of_decide_eq_true this.2
    · have hnil : imported = [] := by
        cases imported with
        | nil => rfl
        | cons a l => exact absurd (Nat.succ_le_succ (Nat.zero_le _)) h
      subst hnil
      simp

/-- Witness for `c1_phase2_excludes_imported` at a concrete input: with one
imported word "haus", the phase-2 list drops it, keeps "baum", and "baum" is
not among the imported words; with no imported words the input is returned
unchanged. -/
theorem c1_phase2_excludes_imported_witness :
    exclude_imported_words [⟨"haus", "das haus"⟩] [] = [⟨"haus", "das haus"⟩] ∧
    exclude_imported_words [⟨"haus", "das haus"⟩, ⟨"baum", "der baum"⟩]
        ["haus"] =
      List.filter (fun wc => decide (wc.word ∉ ["haus"]))
        [⟨"haus", "das haus"⟩, ⟨"baum", "der baum"⟩] ∧
    (⟨"baum", "der baum"⟩ : WordWithContext).word ∉ (["haus"] : List String) :=
  ⟨(c1_phase2_excludes_imported [⟨"haus", "das haus"⟩] []
      (fun _ => false)).1 rfl,
   (c1_phase2_excludes_imported
      [⟨"haus", "das haus"⟩, ⟨"baum", "der baum"⟩] ["haus"]
      (fun _ => false)).2.1,
   (c1_phase2_excludes_imported
      [⟨"haus", "das haus"⟩, ⟨"baum", "der baum"⟩] ["haus"]
      (fun _ => false)).2.2 ⟨"baum", "der baum"⟩ (by decide)⟩

/-- One left-to-right pass of CPython's `str.replace(old, "")` for a
non-empty `old`, on the character list: at each position, if `w` matches
here, delete it and continue after the match, otherwise keep the character.
`fuel` bounds the scan (each step consumes at least one character, so
`s.length` fuel suffices). -/
def replaceAux (w : List Char) : Nat → List Char → List Char
  | 0, s => s
  | _ + 1, [] => []
  | fuel + 1, c :: rest =>
    if w.isPrefixOf (c :: rest) then
      replaceAux w fuel ((c :: rest).drop w.length)
    else
      c :: replaceAux w fuel rest

/-- CPython's `s.replace(w, "")`: replacing with the empty string deletes
every leftmost non-overlapping occurrence; with an empty pattern the result
is `s` itself (the empty replacement is inserted at every gap). -/
def replaceAll (w s : List Char) : List Char :=
  if w = [] then s else replaceAux w s.length s

/-- `api_calls.openai_text.cohere_generate_text`: the provider's raw chat
response (`provider_text`, the excluded network collaborator's output) is
post-processed with `text.replace(word_with_context.word, "")` before being
returned. -/
def cohere_generate_text (word_with_context : WordWithContext)
    (provider_text : List Char) : List Char :=
  replaceAll word_with_context.word.toList provider_text

/-- `api_calls.openai_text.chat_generate_text`: the ChatGPT path returns the
provider's response content unchanged — no word-removal post-processing. -/
def chat_generate_text (provider_text : List Char) : List Char :=
  provider_text

/-- `CohereTextGenerator.generate`: a `WordWithContext` input yields a
response whose text is the post-processed provider output; any other input
raises `ValueError` (`InvalidInputType`). -/
def CohereTextGenerator.generate (input_ : GenInput)
    (provider_text : List Char) : Except GenError (List Char) :=
  match input_ with
  | GenInput.word wc => Except.ok (cohere_generate_text wc provider_text)
  | GenInput.str _ => Except.error GenError.InvalidInputType

lemma replaceAux_not_infix (w : List Char) :
    ∀ (fuel : Nat) (s : List Char), ¬ w <:+: s → replaceAux w fuel s = s := by
  intro fuel
  induction fuel with
  | zero => intro s _; rfl
  | succ fuel ih =>
    intro s hs
    cases s with
    | nil => rfl
    | cons c rest =>
      have hpre : w.isPrefixOf (c :: rest) = false := by
        by_contra hcon
        have : w.isPrefixOf (c :: rest) = true := by
          cases h : w.isPrefixOf (c :: rest) with
          | true => rfl
          | false => exact absurd h hcon
        exact hs (List.isPrefixOf_iff_prefix.mp this).isInfix
      rw [replaceAux, if_neg (by simp [hpre])]
      have : ¬ w <:+: rest := fun h => hs (List.infix_cons h)
      rw [ih rest this]

lemma replaceAux_length_le (w : List Char) :
    ∀ (fuel : Nat) (s : List Char),
      (replaceAux w fuel s).length ≤ s.length := by
  intro fuel
  induction fuel with
  | zero => intro s; exact Nat.le_refl _
  | succ fuel ih =>
    intro s
    cases s with
    | nil => exact Nat.le_refl _
    | cons c rest =>
      by_cases hpre : w.isPrefixOf (c :: rest)
      · rw [replaceAux, if_pos hpre]
        refine Nat.le_trans (ih _) ?_
        rw [List.length_drop]
        exact Nat.sub_le _ _
      · rw [replaceAux, if_neg hpre]
        exact Nat.succ_le_succ (ih rest)

lemma replaceAux_removes (w : List Char) (hw : w ≠ []) :
    ∀ (fuel : Nat) (s : List Char), s.length ≤ fuel → w <:+: s →
      (replaceAux w fuel s).length + w.length ≤ s.length := by
  intro fuel
  induction fuel with
  | zero =>
    intro s hlen hinf
    have : s = [] := List.length_eq_zero.mp (Nat.le_zero.mp hlen)
    subst this
    exact absurd (List.eq_nil_of_infix_nil hinf) hw
  | succ fuel ih =>
    intro s hlen hinf
    cases s with
    | nil => exact absurd (List.eq_nil_of_infix_nil hinf) hw
    | cons c rest =>
      by_cases hpre : w.isPrefixOf (c :: rest)
      · rw [replaceAux, if_pos hpre]
        have hwle : w.length ≤ (c :: rest).length :=
          (List.isPrefixOf_iff_prefix.mp hpre).length_le
        have h1 : (replaceAux w fuel ((c :: rest).drop w.length)).length ≤
            (c :: rest).length - w.length := by
          refine Nat.le_trans (replaceAux_length_le w fuel _) ?_
          rw [List.length_drop]
        omega
      · rw [replaceAux, if_neg hpre]
        have hinf' : w <:+: rest := by
          rcases List.infix_cons_iff.mp hinf with h | h
          · exact absurd (List.isPrefixOf_iff_prefix.mpr h) hpre
          · exact h
        have := ih rest (by simpa using Nat.le_of_succ_le_succ hlen) hinf'
        simp only [List.length_cons]
        omega

/-- C10 counterexample: for the word "ab" and a provider response "aabb",
the Cohere post-processing deletes the single (leftmost) occurrence and the
remaining halves concatenate into a *new* occurrence: the produced card text
is "ab", which contains the input word.  This refutes "the card text
produced by CohereTextGenerator.generate contains no occurrence of the
input word". -/
theorem c10_counterexample :
    CohereTextGenerator.generate (GenInput.word ⟨"ab", ""⟩)
        ['a', 'a', 'b', 'b'] = Except.ok ['a', 'b'] ∧
    ("ab".toList) <:+: ['a', 'b'] := by
  constructor
  · rfl
  · decide

/-- C10 (amended): before the `GeneratorResponse` is built, the Cohere path
deletes every leftmost non-overlapping occurrence of the input word from the
provider's response in a single left-to-right pass (so a response without
the word passes through unchanged, and a response containing it loses at
least one full copy), a post-processing step the ChatGPT text generator does
not perform; the resulting card text may however still contain the word when
the pieces left by the deletions concatenate into a new occurrence. -/
theorem c10_cohere_word_removal :
    (∀ (wc : WordWithContext) (raw : List Char),
      ¬ (wc.word.toList <:+: raw) → cohere_generate_text wc raw = raw) ∧
    (∀ (wc : WordWithContext) (raw : List Char),
      wc.word.toList ≠ [] → wc.word.toList <:+: raw →
      (cohere_generate_text wc raw).length + wc.word.toList.length ≤
        raw.length) ∧
    (∀ raw : List Char, chat_generate_text raw = raw) := by
  refine ⟨?_, ?_, fun _ => rfl⟩
  · intro wc raw hinf
    by_cases hw : wc.word.toList = []
    · rw [hw] at hinf
      exact absurd List.nil_infix hinf
    · unfold cohere_generate_text replaceAll
      rw [if_neg hw]
      exact replaceAux_not_infix _ _ _ hinf
  · intro wc raw hw hinf
    unfold cohere_generate_text replaceAll
    rw [if_neg hw]
    exact replaceAux_removes _ hw _ _ (Nat.le_refl _) hinf

/-- Witness for `c10_cohere_word_removal` at concrete inputs: a response not
containing "ab" is unchanged, and a response equal to "ab" loses the whole
occurrence. -/
theorem c10_cohere_word_removal_witness :
    cohere_generate_text ⟨"ab", ""⟩ ['x', 'y'] = ['x', 'y'] ∧
    (cohere_generate_text ⟨"ab", ""⟩ ['a', 'b']).length +
        ("ab".toList).length ≤ (['a', 'b'] : List Char).length :=
  ⟨c10_cohere_word_removal.1 ⟨"ab", ""⟩ ['x', 'y'] (by decide),
   c10_cohere_word_removal.2.1 ⟨"ab", ""⟩ ['a', 'b'] (by decide) (by decide)⟩
